import Mathlib

/-!
# Shader program compilation and hot reload (`gfx_es2/glsl_program.cpp`)

A shallow embedding of `glsl_program.cpp`.

* A `GLSLProgram` object lives at an address (`Ptr`) of the heap; the functions of the
  source take that address, exactly like the `GLSLProgram *` of the source.
* Everything outside the translation unit is collected in `Env`: the file system
  (`stat`, `VFSReadFile`), the GL driver, the one logging macro whose control flow
  matters (`FLOG`), and the sizes of the character arrays declared in the header
  `gfx_es2/glsl_program.h`.  The GL driver is deterministic in the history of the
  state-changing GL calls issued so far (`State.gl`); its answers are otherwise
  arbitrary.
* The source never looks at the value `stat` returns.  When `stat` fails, the
  `struct stat` local it was given stays unwritten and the source reads `st_mtime` from
  it all the same: `Env.unwritten` gives that value, separately for each of the four
  locals (`vs` and `fs` of `glsl_up_to_date`, `vs` and `fs` of `glsl_recompile`).
* `exit(1)` inside `CompileShader` ends the process: functions return an `Outcome`
  together with the state reached.
* A `strcpy` that reads from outside its source string, or writes more bytes than its
  destination array holds, has no defined behaviour: `glsl_create` then has no result
  (`none`).
* `State.calls` is a ghost log recording every entry into `glsl_recompile` and every call
  of the (external) loss registry, so that "is invoked on" can be stated.
* `ELOG` / `ILOG` only write to the log sink and are left out.
-/

namespace GLSL

/-- GL object name. -/
abbrev GLuint := Nat

/-- GL signed integer: locations, status values, lengths. -/
abbrev GLint := Int

/-- Modification time, the `st_mtime` member of `struct stat`. -/
abbrev time_t := Int

/-- Address of a `GLSLProgram` object. -/
abbrev Ptr := Nat

/-- The two shader types handed to `glCreateShader`. -/
inductive GLenum
  | GL_VERTEX_SHADER
  | GL_FRAGMENT_SHADER
  deriving DecidableEq, Repr

/-- The value `GL_TRUE`. -/
def GL_TRUE : GLint := 1

/-- State-changing GL calls made by this translation unit.  The creation calls carry the
name the driver returned. -/
inductive GLCall
  | glCreateShader (type : GLenum) (result : GLuint)
  | glShaderSource (shader : GLuint) (source : String)
  | glCompileShader (shader : GLuint)
  | glDeleteShader (shader : GLuint)
  | glCreateProgram (result : GLuint)
  | glAttachShader (prog : GLuint) (shader : GLuint)
  | glLinkProgram (prog : GLuint)
  | glDeleteProgram (prog : GLuint)
  deriving DecidableEq, Repr

/-- Ghost log entries: entry into `glsl_recompile`, and the calls into the loss registry
declared in `gfx/gl_lost_manager.h`. -/
inductive Call
  | glsl_recompile (program : Ptr)
  | register_gl_resource_holder (holder : Ptr)
  | unregister_gl_resource_holder (holder : Ptr)
  deriving DecidableEq, Repr

/-- The fields of `struct GLSLProgram` used by `glsl_program.cpp`.  The character
arrays hold strings; `name` is `none` as long as nothing has been copied into it. -/
structure GLSLProgram where
  name : Option String
  vshader_filename : String
  fshader_filename : String
  vshader_mtime : time_t
  fshader_mtime : time_t
  sampler0 : GLint
  sampler1 : GLint
  a_position : GLint
  a_color : GLint
  a_normal : GLint
  a_texcoord0 : GLint
  a_texcoord1 : GLint
  u_worldviewproj : GLint
  u_world : GLint
  u_viewproj : GLint
  u_fog : GLint
  u_sundir : GLint
  u_camerapos : GLint
  vsh_ : GLuint
  fsh_ : GLuint
  program_ : GLuint
  deriving DecidableEq, Repr

/-- The four `struct stat` locals of the source: `vs` and `fs` in `glsl_up_to_date`
(line 62), `vs` and `fs` in `glsl_recompile` (line 84). -/
inductive StatSite
  | up_to_date_vs
  | up_to_date_fs
  | recompile_vs
  | recompile_fs
  deriving DecidableEq, Repr

/-- The world outside `glsl_program.cpp`.

* `stat path` is the modification time `stat(path, &st)` writes into `st.st_mtime`, or
  `none` when `stat` fails and writes nothing.
* `unwritten site path` is what the local `site` holds in `st_mtime` after a failed
  `stat` on `path`: an indeterminate value, which may differ from one local to another
  and, `Env` being the world of one call, from one call to the next.
* `VFSReadFile path` is the text of the file, or `none` for the null pointer returned
  when it cannot be read.
* The GL driver answers as a function of the history of state-changing calls.
* `FLOG_fatal` says whether the `FLOG` macro of `base/logging.h` ends the process after
  logging.
* `name_size`, `vshader_filename_size` and `fshader_filename_size` are the sizes in
  bytes of the members `name`, `vshader_filename` and `fshader_filename` declared in
  `gfx_es2/glsl_program.h`. -/
structure Env where
  stat : String → Option time_t
  unwritten : StatSite → String → time_t
  VFSReadFile : String → Option String
  createShader : List GLCall → GLenum → GLuint
  createProgram : List GLCall → GLuint
  compileStatus : List GLCall → GLuint → GLint
  linkStatus : List GLCall → GLuint → GLint
  infoLogLength : List GLCall → GLuint → GLint
  uniformLocation : List GLCall → GLuint → String → GLint
  attribLocation : List GLCall → GLuint → String → GLint
  FLOG_fatal : Bool
  name_size : Nat
  vshader_filename_size : Nat
  fshader_filename_size : Nat

/-- What the source reads as `st.st_mtime` after `stat(path, &st)` on the local `site`:
the modification time when `stat` succeeded, the unwritten content of the local when it
failed. -/
def Env.st_mtime (E : Env) (site : StatSite) (path : String) : time_t :=
  match E.stat path with
  | some t => t
  | none => E.unwritten site path

/-- The environment `E` with the file system replaced by a map `F` from path to
modification time: `stat` succeeds on every path. -/
def Env.withFiles (E : Env) (F : String → time_t) : Env :=
  { E with stat := fun path => some (F path) }

/-- Program state: the heap of `GLSLProgram` objects, the file-static
`std::set<GLSLProgram *> active_programs`, the history of GL calls, and the ghost call
log. -/
structure State where
  heap : Ptr → GLSLProgram
  active_programs : Finset Ptr
  gl : List GLCall
  calls : List Call

/-- How a function ends: it returns a value, or the process is terminated inside it. -/
inductive Outcome (α : Type)
  | ret (a : α)
  | terminated
  deriving DecidableEq, Repr

/-- Store `v` into the object at address `p`. -/
def State.store (s : State) (p : Ptr) (v : GLSLProgram) : State :=
  { s with heap := Function.update s.heap p v }

/-- Append a GL call to the history. -/
def State.glCall (s : State) (c : GLCall) : State :=
  { s with gl := s.gl ++ [c] }

/-- Append an entry to the ghost call log. -/
def State.logCall (s : State) (c : Call) : State :=
  { s with calls := s.calls ++ [c] }

/-- The GL calls issued between two states of one execution. -/
def glIssued (before after : State) : List GLCall :=
  after.gl.drop before.gl.length

/-- The ghost log entries added between two states of one execution. -/
def callsIssued (before after : State) : List Call :=
  after.calls.drop before.calls.length

/-- `glCreateShader(type)`: the name returned and the state after the call. -/
def glCreateShader (E : Env) (s : State) (type : GLenum) : GLuint × State :=
  (E.createShader s.gl type, s.glCall (.glCreateShader type (E.createShader s.gl type)))

/-- `glCreateProgram()`: the name returned and the state after the call. -/
def glCreateProgram (E : Env) (s : State) : GLuint × State :=
  (E.createProgram s.gl, s.glCall (.glCreateProgram (E.createProgram s.gl)))

/-- `glGetUniformLocation(program, name)`. -/
def glGetUniformLocation (E : Env) (s : State) (program : GLuint) (name : String) : GLint :=
  E.uniformLocation s.gl program name

/-- `glGetAttribLocation(program, name)`. -/
def glGetAttribLocation (E : Env) (s : State) (program : GLuint) (name : String) : GLint :=
  E.attribLocation s.gl program name

/-- `CompileShader(source, shader, filename)`: uploads and compiles; a compile status of
zero ends the process with `exit(1)`, otherwise `true` is returned. -/
def CompileShader (E : Env) (s : State) (source : String) (shader : GLuint)
    (_filename : String) : Outcome Bool × State :=
  let s1 := s.glCall (.glShaderSource shader source)
  let s2 := s1.glCall (.glCompileShader shader)
  let success := E.compileStatus s2.gl shader
  if success = 0 then
    (.terminated, s2)
  else
    (.ret true, s2)

/-- The assignments of lines 145-163 of `glsl_recompile`: the three handles, then the
thirteen locations, each looked up in `program->program_`. -/
def storeLinked (E : Env) (s : State) (p : GLSLProgram) (prog vsh : GLuint) : GLSLProgram :=
  let p1 := { p with program_ := prog }
  let p2 := { p1 with vsh_ := vsh }
  let p3 := { p2 with fsh_ := vsh }
  { p3 with
    sampler0 := glGetUniformLocation E s p3.program_ "sampler0"
    sampler1 := glGetUniformLocation E s p3.program_ "sampler1"
    a_position := glGetAttribLocation E s p3.program_ "a_position"
    a_color := glGetAttribLocation E s p3.program_ "a_color"
    a_normal := glGetAttribLocation E s p3.program_ "a_normal"
    a_texcoord0 := glGetAttribLocation E s p3.program_ "a_texcoord0"
    a_texcoord1 := glGetAttribLocation E s p3.program_ "a_texcoord1"
    u_worldviewproj := glGetUniformLocation E s p3.program_ "u_worldviewproj"
    u_world := glGetUniformLocation E s p3.program_ "u_world"
    u_viewproj := glGetUniformLocation E s p3.program_ "u_viewproj"
    u_fog := glGetUniformLocation E s p3.program_ "u_fog"
    u_sundir := glGetUniformLocation E s p3.program_ "u_sundir"
    u_camerapos := glGetUniformLocation E s p3.program_ "u_camerapos" }

/-- Lines 118-168 of `glsl_recompile`: create the program object, attach, link; on a link
status other than `GL_TRUE` log, delete the two shaders and return false; otherwise
delete the old program if there is one, store handles and locations, return true. -/
def linkStage (E : Env) (s : State) (program : Ptr) (vsh fsh : GLuint) :
    Outcome Bool × State :=
  let prog := (glCreateProgram E s).1
  let s1 := (glCreateProgram E s).2
  let s2 := s1.glCall (.glAttachShader prog vsh)
  let s3 := s2.glCall (.glAttachShader prog fsh)
  let s4 := s3.glCall (.glLinkProgram prog)
  let linkStatus := E.linkStatus s4.gl prog
  if linkStatus ≠ GL_TRUE then
    let bufLength := E.infoLogLength s4.gl prog
    if bufLength ≠ 0 ∧ E.FLOG_fatal = true then
      (.terminated, s4)
    else
      let s5 := s4.glCall (.glDeleteShader vsh)
      let s6 := s5.glCall (.glDeleteShader fsh)
      (.ret false, s6)
  else
    let s5 :=
      if (s4.heap program).program_ ≠ 0 then
        s4.glCall (.glDeleteProgram (s4.heap program).program_)
      else s4
    (.ret true, s5.store program (storeLinked E s5 (s5.heap program) prog vsh))

/-- Lines 103-116 of `glsl_recompile`, followed by the link stage: create and compile the
vertex shader, then the fragment shader. -/
def compileStage (E : Env) (s : State) (program : Ptr) (vsh_src fsh_src : String) :
    Outcome Bool × State :=
  let vsh := (glCreateShader E s .GL_VERTEX_SHADER).1
  let s1 := (glCreateShader E s .GL_VERTEX_SHADER).2
  match CompileShader E s1 vsh_src vsh (s1.heap program).vshader_filename with
  | (.terminated, s2) => (.terminated, s2)
  | (.ret false, s2) => (.ret false, s2)
  | (.ret true, s2) =>
    let fsh := (glCreateShader E s2 .GL_FRAGMENT_SHADER).1
    let s3 := (glCreateShader E s2 .GL_FRAGMENT_SHADER).2
    match CompileShader E s3 fsh_src fsh (s3.heap program).fshader_filename with
    | (.terminated, s4) => (.terminated, s4)
    | (.ret false, s4) => (.ret false, s4.glCall (.glDeleteShader vsh))
    | (.ret true, s4) => linkStage E s4 program vsh fsh

/-- `glsl_recompile(program)`. -/
def glsl_recompile (E : Env) (s : State) (program : Ptr) : Outcome Bool × State :=
  let s0 := s.logCall (.glsl_recompile program)
  let p := s0.heap program
  let s1 := s0.store program
    { p with vshader_mtime := E.st_mtime .recompile_vs p.vshader_filename
             fshader_mtime := E.st_mtime .recompile_fs p.fshader_filename }
  match E.VFSReadFile (s1.heap program).vshader_filename with
  | none => (.ret false, s1)
  | some vsh_src =>
    match E.VFSReadFile (s1.heap program).fshader_filename with
    | none => (.ret false, s1)
    | some fsh_src => compileStage E s1 program vsh_src fsh_src

/-- `glsl_up_to_date(program)`. -/
def glsl_up_to_date (E : Env) (s : State) (program : Ptr) : Bool :=
  if E.st_mtime .up_to_date_vs (s.heap program).vshader_filename
        ≠ (s.heap program).vshader_mtime ∨
     E.st_mtime .up_to_date_fs (s.heap program).fshader_filename
        ≠ (s.heap program).fshader_mtime then
    false
  else
    true

/-- The loop of `glsl_refresh` over the elements of `active_programs` still to be
visited. -/
def refreshLoop (E : Env) : List Ptr → State → Outcome Unit × State
  | [], s => (.ret (), s)
  | p :: rest, s =>
    if glsl_up_to_date E s p = false then
      match glsl_recompile E s p with
      | (.terminated, s1) => (.terminated, s1)
      | (.ret _, s1) => refreshLoop E rest s1
    else
      refreshLoop E rest s

/-- `glsl_refresh()`: the iterator of a `std::set` visits the elements in increasing
order. -/
def glsl_refresh (E : Env) (s : State) : Outcome Unit × State :=
  refreshLoop E (s.active_programs.sort (· ≤ ·)) s

/-- `strlen`: paths are ASCII strings, one byte per character. -/
def strlen (str : String) : Nat := str.length

/-- The offset, relative to the start of `vshader`, of the pointer
`vshader + strlen(vshader) - 16` that `glsl_create` passes to `strcpy`. -/
def nameOffset (vshader : String) : Int := (strlen vshader : Int) - 16

/-- The string at `vshader + strlen(vshader) - 16`, the source of the `strcpy` of line
51: the characters of `vshader` from `nameOffset` on when that offset lies inside the
string, and `none` when the pointer lies before the first character. -/
def displayName (vshader : String) : Option String :=
  if 0 ≤ nameOffset vshader then some (vshader.drop (nameOffset vshader).toNat) else none

/-- `strcpy(dst, src)` into a character array of `size` bytes: the string now held by
`dst`.  There is none when `src` is not a string inside its object, or when the string
with its terminating zero does not fit into `size` bytes. -/
def strcpy (size : Nat) (src : Option String) : Option String :=
  match src with
  | none => none
  | some str => if strlen str + 1 ≤ size then some str else none

/-- Lines 47-53 of `glsl_create`: `program` is the address of the object that
`new GLSLProgram()` returns; its other fields start out with whatever the heap holds
there.  The handles are zeroed first, then the three `strcpy` calls run; the result is
`none` as soon as one of them has no defined behaviour. -/
def createInit (E : Env) (s : State) (program : Ptr) (vshader fshader : String) :
    Option State :=
  let p0 := s.heap program
  let p1 := { p0 with program_ := 0 }
  let p2 := { p1 with vsh_ := 0 }
  let p3 := { p2 with fsh_ := 0 }
  match strcpy E.name_size (displayName vshader) with
  | none => none
  | some name =>
    let p4 := { p3 with name := some name }
    match strcpy E.vshader_filename_size (some vshader) with
    | none => none
    | some vname =>
      let p5 := { p4 with vshader_filename := vname }
      match strcpy E.fshader_filename_size (some fshader) with
      | none => none
      | some fname =>
        let p6 := { p5 with fshader_filename := fname }
        some (s.store program p6)

/-- `glsl_create(vshader, fshader)`, with `program` the address returned by `new`; `none`
when the copies of lines 51-53 have no defined behaviour. -/
def glsl_create (E : Env) (s : State) (program : Ptr) (vshader fshader : String) :
    Option (Outcome Ptr × State) :=
  match createInit E s program vshader fshader with
  | none => none
  | some s1 =>
    match glsl_recompile E s1 program with
    | (.terminated, s2) => some (.terminated, s2)
    | (.ret b, s2) =>
      let s3 := if b = true then
          { s2 with active_programs := insert program s2.active_programs }
        else s2
      let s4 := s3.logCall (.register_gl_resource_holder program)
      some (.ret program, s4)

/-- `GLSLProgram::GLLost()` on the object at address `this`; the value returned by
`glsl_recompile` is dropped. -/
def GLLost (E : Env) (s : State) (this : Ptr) : Outcome Unit × State :=
  let s1 := s.store this { s.heap this with program_ := 0 }
  let s2 := s1.store this { s1.heap this with vsh_ := 0 }
  let s3 := s2.store this { s2.heap this with fsh_ := 0 }
  match glsl_recompile E s3 this with
  | (.terminated, s4) => (.terminated, s4)
  | (.ret _, s4) => (.ret (), s4)

/-- `glsl_destroy(program)`; `delete program` leaves the heap cell as it is. -/
def glsl_destroy (s : State) (program : Ptr) : State :=
  let s1 := s.logCall (.unregister_gl_resource_holder program)
  let s2 := s1.glCall (.glDeleteShader (s1.heap program).vsh_)
  let s3 := s2.glCall (.glDeleteShader (s2.heap program).fsh_)
  let s4 := s3.glCall (.glDeleteProgram (s3.heap program).program_)
  { s4 with active_programs := s4.active_programs.erase program }

/-! ## Normal form of `glsl_recompile` -/

/-- The program object once both modification times have been recorded (lines 85-88). -/
def withTimes (E : Env) (p : GLSLProgram) : GLSLProgram :=
  { p with vshader_mtime := E.st_mtime .recompile_vs p.vshader_filename
           fshader_mtime := E.st_mtime .recompile_fs p.fshader_filename }

/-- The state `glsl_recompile` is in when, started in `s`, it has issued the GL calls `d`
and the object at `program` holds `v`. -/
def reached (s : State) (program : Ptr) (d : List GLCall) (v : GLSLProgram) : State :=
  { heap := Function.update s.heap program v
    active_programs := s.active_programs
    gl := s.gl ++ d
    calls := s.calls ++ [.glsl_recompile program] }

/-- GL calls of lines 103-105: create, upload and compile the vertex shader. -/
def vshCalls (E : Env) (g : List GLCall) (vsrc : String) : List GLCall :=
  [.glCreateShader .GL_VERTEX_SHADER (E.createShader g .GL_VERTEX_SHADER),
   .glShaderSource (E.createShader g .GL_VERTEX_SHADER) vsrc,
   .glCompileShader (E.createShader g .GL_VERTEX_SHADER)]

/-- GL calls of lines 111-112: create, upload and compile the fragment shader. -/
def fshCalls (E : Env) (g : List GLCall) (fsrc : String) : List GLCall :=
  [.glCreateShader .GL_FRAGMENT_SHADER (E.createShader g .GL_FRAGMENT_SHADER),
   .glShaderSource (E.createShader g .GL_FRAGMENT_SHADER) fsrc,
   .glCompileShader (E.createShader g .GL_FRAGMENT_SHADER)]

/-- GL calls of lines 118-122: create the program object, attach both shaders, link. -/
def linkCalls (E : Env) (g : List GLCall) (vsh fsh : GLuint) : List GLCall :=
  [.glCreateProgram (E.createProgram g), .glAttachShader (E.createProgram g) vsh,
   .glAttachShader (E.createProgram g) fsh, .glLinkProgram (E.createProgram g)]

/-- GL calls of a link attempt that succeeded: the link calls, then the deletion of the
previous program object when there was one (lines 141-143). -/
def successCalls (E : Env) (g : List GLCall) (vsh fsh old : GLuint) : List GLCall :=
  linkCalls E g vsh fsh ++ (if old ≠ 0 then [.glDeleteProgram old] else [])

/-- Normal form of `glsl_recompile`: one branch per path through the function, with the
state reached written out.  It is a proof device; `glsl_recompile_eq` shows that it
agrees with `glsl_recompile`. -/
def recompilePaths (E : Env) (s : State) (program : Ptr) : Outcome Bool × State :=
  let p := s.heap program
  match E.VFSReadFile p.vshader_filename with
  | none => (.ret false, reached s program [] (withTimes E p))
  | some vsrc =>
    match E.VFSReadFile p.fshader_filename with
    | none => (.ret false, reached s program [] (withTimes E p))
    | some fsrc =>
      let vsh := E.createShader s.gl .GL_VERTEX_SHADER
      let d1 := vshCalls E s.gl vsrc
      if E.compileStatus (s.gl ++ d1) vsh = 0 then
        (.terminated, reached s program d1 (withTimes E p))
      else
        let fsh := E.createShader (s.gl ++ d1) .GL_FRAGMENT_SHADER
        let d2 := d1 ++ fshCalls E (s.gl ++ d1) fsrc
        if E.compileStatus (s.gl ++ d2) fsh = 0 then
          (.terminated, reached s program d2 (withTimes E p))
        else
          let prog := E.createProgram (s.gl ++ d2)
          let d3 := d2 ++ linkCalls E (s.gl ++ d2) vsh fsh
          if E.linkStatus (s.gl ++ d3) prog ≠ GL_TRUE then
            if E.infoLogLength (s.gl ++ d3) prog ≠ 0 ∧ E.FLOG_fatal = true then
              (.terminated, reached s program d3 (withTimes E p))
            else
              (.ret false, reached s program (d3 ++ [.glDeleteShader vsh, .glDeleteShader fsh])
                (withTimes E p))
          else
            let d4 := d2 ++ successCalls E (s.gl ++ d2) vsh fsh p.program_
            (.ret true, reached s program d4
              (storeLinked E (reached s program d4 (withTimes E p)) (withTimes E p) prog vsh))

/-- The state in which `GLLost` calls `glsl_recompile`: the state it was called in, with
`program_`, `vsh_` and `fsh_` of the object set to 0. -/
def zeroHandles (s : State) (this : Ptr) : State :=
  s.store this { s.heap this with program_ := 0, vsh_ := 0, fsh_ := 0 }

/-! ## Concrete inputs -/

/-- A program object with every field zero or empty. -/
def blankProgram : GLSLProgram :=
  { name := none, vshader_filename := "", fshader_filename := "", vshader_mtime := 0,
    fshader_mtime := 0, sampler0 := 0, sampler1 := 0, a_position := 0, a_color := 0,
    a_normal := 0, a_texcoord0 := 0, a_texcoord1 := 0, u_worldviewproj := 0, u_world := 0,
    u_viewproj := 0, u_fog := 0, u_sundir := 0, u_camerapos := 0, vsh_ := 0, fsh_ := 0,
    program_ := 0 }

/-- An environment in which every path has modification time 100, the files `v.glsl`,
`f.glsl`, `shaders/basic_v.glsl` and `shaders/basic_f.glsl` can be read, every shader
compiles, every program links, the driver names each new object by the number of GL
calls made so far plus one, and the three character arrays hold 32, 256 and 256
bytes. -/
def envOk : Env :=
  { stat := fun _ => some 100
    unwritten := fun _ _ => 0
    VFSReadFile := fun path =>
      if path = "v.glsl" ∨ path = "shaders/basic_v.glsl" then some "V"
      else if path = "f.glsl" ∨ path = "shaders/basic_f.glsl" then some "F"
      else none
    createShader := fun g _ => g.length + 1
    createProgram := fun g => g.length + 1
    compileStatus := fun _ _ => 1
    linkStatus := fun _ _ => 1
    infoLogLength := fun _ _ => 0
    uniformLocation := fun _ _ name => if name = "u_world" then 2 else -1
    attribLocation := fun _ _ name => if name = "a_position" then 0 else -1
    FLOG_fatal := false
    name_size := 32
    vshader_filename_size := 256
    fshader_filename_size := 256 }

/-- As `envOk`, but every link fails, with an empty info log. -/
def envLinkFail : Env := { envOk with linkStatus := fun _ _ => 0 }

/-- As `envOk`, but no file can be read. -/
def envUnreadable : Env := { envOk with VFSReadFile := fun _ => none }

/-- As `envOk`, but every shader fails to compile. -/
def envCompileError : Env := { envOk with compileStatus := fun _ _ => 0 }

/-- As `envOk`, with every modification time advanced to 200. -/
def envTouched : Env := { envOk with stat := fun _ => some 200 }

/-- As `envOk`, but the driver returns the name 0 from every creation call. -/
def envZeroNames : Env :=
  { envOk with createShader := fun _ _ => 0, createProgram := fun _ => 0 }

/-- As `envLinkFail`, but the driver hands out the names 11, 12 and 13 again: 11 for a
vertex shader, 12 for a fragment shader, 13 for a program object. -/
def envReusedNames : Env :=
  { envLinkFail with
    createShader := fun _ type =>
      match type with
      | .GL_VERTEX_SHADER => 11
      | .GL_FRAGMENT_SHADER => 12
    createProgram := fun _ => 13 }

/-- As `envOk`, but `stat` fails on every path and no file can be read; the unwritten
locals of `glsl_recompile` hold 1, those of `glsl_up_to_date` hold 2. -/
def envMissing : Env :=
  { envOk with
    stat := fun _ => none
    VFSReadFile := fun _ => none
    unwritten := fun site _ =>
      match site with
      | .recompile_vs => 1
      | .recompile_fs => 1
      | .up_to_date_vs => 2
      | .up_to_date_fs => 2 }

/-- A linked program object for `v.glsl` / `f.glsl`, last compiled at time `t`, holding
the GL names 11, 12 and 13. -/
def linkedProgram (t : time_t) : GLSLProgram :=
  { blankProgram with
    vshader_filename := "v.glsl", fshader_filename := "f.glsl"
    vshader_mtime := t, fshader_mtime := t
    sampler0 := 5, u_world := 6, a_position := 7
    vsh_ := 11, fsh_ := 12, program_ := 13 }

/-- No program object is active; nothing has been called yet. -/
def emptyState : State :=
  { heap := fun _ => blankProgram, active_programs := ∅, gl := [], calls := [] }

/-- One active program at address 7, last compiled at time 0. -/
def oneProgram : State :=
  { heap := fun _ => linkedProgram 0, active_programs := {7}, gl := [], calls := [] }

/-- Two active programs at addresses 1 and 2, both last compiled at time 0. -/
def twoPrograms : State :=
  { heap := fun _ => linkedProgram 0, active_programs := {1, 2}, gl := [], calls := [] }

/-! ## Basic facts about the state operations -/

@[simp] theorem store_gl (s : State) (p : Ptr) (v : GLSLProgram) : (s.store p v).gl = s.gl :=
  rfl

@[simp] theorem store_calls (s : State) (p : Ptr) (v : GLSLProgram) :
    (s.store p v).calls = s.calls := rfl

@[simp] theorem store_active (s : State) (p : Ptr) (v : GLSLProgram) :
    (s.store p v).active_programs = s.active_programs := rfl

@[simp] theorem store_heap (s : State) (p : Ptr) (v : GLSLProgram) :
    (s.store p v).heap = Function.update s.heap p v := rfl

@[simp] theorem glCall_gl (s : State) (c : GLCall) : (s.glCall c).gl = s.gl ++ [c] := rfl

@[simp] theorem glCall_heap (s : State) (c : GLCall) : (s.glCall c).heap = s.heap := rfl

@[simp] theorem glCall_calls (s : State) (c : GLCall) : (s.glCall c).calls = s.calls := rfl

@[simp] theorem glCall_active (s : State) (c : GLCall) :
    (s.glCall c).active_programs = s.active_programs := rfl

@[simp] theorem logCall_gl (s : State) (c : Call) : (s.logCall c).gl = s.gl := rfl

@[simp] theorem logCall_heap (s : State) (c : Call) : (s.logCall c).heap = s.heap := rfl

@[simp] theorem logCall_calls (s : State) (c : Call) :
    (s.logCall c).calls = s.calls ++ [c] := rfl

@[simp] theorem logCall_active (s : State) (c : Call) :
    (s.logCall c).active_programs = s.active_programs := rfl

@[simp] theorem reached_gl (s : State) (p : Ptr) (d : List GLCall) (v : GLSLProgram) :
    (reached s p d v).gl = s.gl ++ d := rfl

@[simp] theorem reached_calls (s : State) (p : Ptr) (d : List GLCall) (v : GLSLProgram) :
    (reached s p d v).calls = s.calls ++ [.glsl_recompile p] := rfl

@[simp] theorem reached_active (s : State) (p : Ptr) (d : List GLCall) (v : GLSLProgram) :
    (reached s p d v).active_programs = s.active_programs := rfl

@[simp] theorem reached_heap_same (s : State) (p : Ptr) (d : List GLCall) (v : GLSLProgram) :
    (reached s p d v).heap p = v := by
  simp [reached]

/-- `glsl_recompile` on `p` leaves every other object alone. -/
theorem reached_heap_other (s : State) (p q : Ptr) (d : List GLCall) (v : GLSLProgram)
    (h : q ≠ p) : (reached s p d v).heap q = s.heap q := by
  simp [reached, Function.update_noteq h]

/-- The GL calls issued on the way to `reached s p d v` are `d`. -/
theorem glIssued_reached (s : State) (p : Ptr) (d : List GLCall) (v : GLSLProgram) :
    glIssued s (reached s p d v) = d := by
  simp [glIssued, reached]

/-- The only ghost log entry on the way to `reached s p d v` is the entry into
`glsl_recompile`. -/
theorem callsIssued_reached (s : State) (p : Ptr) (d : List GLCall) (v : GLSLProgram) :
    callsIssued s (reached s p d v) = [.glsl_recompile p] := by
  simp [callsIssued, reached]

/-- On a file system given as a map, every `stat` succeeds and yields the map's value. -/
theorem st_mtime_withFiles (E : Env) (F : String → time_t) (site : StatSite)
    (path : String) : (E.withFiles F).st_mtime site path = F path := rfl

/-- What the source reads after a successful `stat` is the modification time. -/
theorem st_mtime_of_stat (E : Env) (site : StatSite) (path : String) (t : time_t)
    (h : E.stat path = some t) : E.st_mtime site path = t := by
  simp [Env.st_mtime, h]

/-- The source-shaped `glsl_recompile` and its normal form agree. -/
theorem glsl_recompile_eq (E : Env) (s : State) (program : Ptr) :
    glsl_recompile E s program = recompilePaths E s program := by
  unfold glsl_recompile recompilePaths
  simp only [store_heap, logCall_heap, Function.update_same]
  cases hv : E.VFSReadFile (s.heap program).vshader_filename with
  | none => simp [reached, State.store, State.logCall, withTimes]
  | some vsrc =>
    cases hf : E.VFSReadFile (s.heap program).fshader_filename with
    | none => simp [reached, State.store, State.logCall, withTimes]
    | some fsrc =>
      simp only []
      unfold compileStage CompileShader linkStage
      simp only [glCreateShader, glCreateProgram, glCall_gl, store_gl, logCall_gl,
        List.append_assoc, List.singleton_append, List.cons_append, List.nil_append, vshCalls,
        fshCalls, linkCalls, successCalls, glCall_heap, store_heap, logCall_heap,
        Function.update_same]
      split_ifs <;> simp_all [reached, State.store, State.logCall, withTimes, State.glCall]

/-- A call with an unreadable vertex or fragment source returns false with no GL call. -/
theorem recompile_unreadable (E : Env) (s : State) (program : Ptr)
    (h : E.VFSReadFile (s.heap program).vshader_filename = none ∨
         E.VFSReadFile (s.heap program).fshader_filename = none) :
    glsl_recompile E s program =
      (.ret false, reached s program [] (withTimes E (s.heap program))) := by
  rw [glsl_recompile_eq]
  unfold recompilePaths
  rcases h with h | h
  · simp [h]
  · cases hv : E.VFSReadFile (s.heap program).vshader_filename <;> simp [h, hv]

/-- Whatever the outcome, the state reached differs from the start state by GL calls
appended, one ghost log entry, and the object at `program`, whose file names are kept
and whose stored times are the current modification times. -/
theorem recompile_reaches (E : Env) (s : State) (program : Ptr) :
    ∃ d v, (glsl_recompile E s program).2 = reached s program d v ∧
      v.vshader_filename = (s.heap program).vshader_filename ∧
      v.fshader_filename = (s.heap program).fshader_filename ∧
      v.vshader_mtime = E.st_mtime .recompile_vs (s.heap program).vshader_filename ∧
      v.fshader_mtime = E.st_mtime .recompile_fs (s.heap program).fshader_filename := by
  rw [glsl_recompile_eq]
  unfold recompilePaths
  simp only []
  cases hv : E.VFSReadFile (s.heap program).vshader_filename with
  | none => exact ⟨_, _, rfl, rfl, rfl, rfl, rfl⟩
  | some vsrc =>
    cases hf : E.VFSReadFile (s.heap program).fshader_filename with
    | none => exact ⟨_, _, rfl, rfl, rfl, rfl, rfl⟩
    | some fsrc =>
      simp only []
      split_ifs
      all_goals exact ⟨_, _, rfl, rfl, rfl, rfl, rfl⟩

/-- On every path that does not return true, the object keeps all its fields except the
two stored times, no program object is deleted, and only shaders created on that path
are deleted. -/
theorem recompile_not_true (E : Env) (s : State) (program : Ptr)
    (h : (glsl_recompile E s program).1 ≠ .ret true) :
    ∃ d, (glsl_recompile E s program).2 = reached s program d (withTimes E (s.heap program)) ∧
      (∀ x, GLCall.glDeleteProgram x ∉ d) ∧
      (∀ x, GLCall.glDeleteShader x ∈ d → ∃ t, GLCall.glCreateShader t x ∈ d) := by
  rw [glsl_recompile_eq] at h ⊢
  unfold recompilePaths at h ⊢
  simp only [] at h ⊢
  cases hv : E.VFSReadFile (s.heap program).vshader_filename with
  | none => exact ⟨[], rfl, by simp, by simp⟩
  | some vsrc =>
    cases hf : E.VFSReadFile (s.heap program).fshader_filename with
    | none => exact ⟨[], rfl, by simp, by simp⟩
    | some fsrc =>
      simp only [hv, hf] at h
      simp only []
      split_ifs with h1 h2 h3 h4
      · exact ⟨_, rfl, by simp [vshCalls], by simp [vshCalls]⟩
      · exact ⟨_, rfl, by simp [vshCalls, fshCalls], by simp [vshCalls, fshCalls]⟩
      · exact ⟨_, rfl, by simp [vshCalls, fshCalls, linkCalls],
          by simp [vshCalls, fshCalls, linkCalls]⟩
      · refine ⟨_, rfl, by simp [vshCalls, fshCalls, linkCalls], ?_⟩
        intro x hx
        simp only [vshCalls, fshCalls, linkCalls, List.mem_append, List.mem_cons,
          List.mem_singleton, List.not_mem_nil, or_false, reduceCtorEq, false_or,
          GLCall.glDeleteShader.injEq] at hx
        rcases hx with rfl | rfl
        · exact ⟨.GL_VERTEX_SHADER, by simp [vshCalls, fshCalls, linkCalls]⟩
        · exact ⟨.GL_FRAGMENT_SHADER, by simp [vshCalls, fshCalls, linkCalls]⟩
      · rw [if_neg h1, if_neg h2, if_neg h3] at h
        exact absurd rfl h

/-- On the path that returns true: the GL calls made, the names created, and the object
stored. -/
theorem recompile_true (E : Env) (s : State) (program : Ptr)
    (h : (glsl_recompile E s program).1 = .ret true) :
    ∃ d vsh fsh prog,
      (glsl_recompile E s program).2 = reached s program d
        (storeLinked E (reached s program d (withTimes E (s.heap program)))
          (withTimes E (s.heap program)) prog vsh) ∧
      GLCall.glCreateShader .GL_VERTEX_SHADER vsh ∈ d ∧
      GLCall.glCreateShader .GL_FRAGMENT_SHADER fsh ∈ d ∧
      GLCall.glCreateProgram prog ∈ d ∧
      GLCall.glLinkProgram prog ∈ d ∧
      (∃ g, vsh = E.createShader g .GL_VERTEX_SHADER) ∧
      (∃ g, prog = E.createProgram g) ∧
      (∀ x, GLCall.glDeleteShader x ∉ d) ∧
      (∀ x, GLCall.glDeleteProgram x ∈ d → x = (s.heap program).program_ ∧ x ≠ 0) := by
  rw [glsl_recompile_eq] at h ⊢
  unfold recompilePaths at h ⊢
  simp only [] at h ⊢
  cases hv : E.VFSReadFile (s.heap program).vshader_filename with
  | none => simp [hv] at h
  | some vsrc =>
    cases hf : E.VFSReadFile (s.heap program).fshader_filename with
    | none => simp [hv, hf] at h
    | some fsrc =>
      simp only [hv, hf] at h
      simp only []
      split_ifs with h1 h2 h3 h4
      · rw [if_pos h1] at h
        cases h
      · rw [if_neg h1, if_pos h2] at h
        cases h
      · rw [if_neg h1, if_neg h2, if_pos h3, if_pos h4] at h
        cases h
      · rw [if_neg h1, if_neg h2, if_pos h3, if_neg h4] at h
        cases h
      · refine ⟨_, E.createShader s.gl .GL_VERTEX_SHADER,
          E.createShader (s.gl ++ vshCalls E s.gl vsrc) .GL_FRAGMENT_SHADER,
          E.createProgram (s.gl ++ (vshCalls E s.gl vsrc ++
            fshCalls E (s.gl ++ vshCalls E s.gl vsrc) fsrc)),
          rfl, ?_, ?_, ?_, ?_, ⟨_, rfl⟩, ⟨_, rfl⟩, ?_, ?_⟩
        · simp [vshCalls]
        · simp [fshCalls]
        · simp [successCalls, linkCalls]
        · simp [successCalls, linkCalls]
        · intro x
          simp only [vshCalls, fshCalls, successCalls, linkCalls]
          split_ifs <;> simp
        · intro x
          simp only [vshCalls, fshCalls, successCalls, linkCalls]
          split_ifs with h5 <;> simp
          intro hx
          exact ⟨hx, hx ▸ h5⟩


/-- When `glsl_recompile` returns false, the object it leaves is the one it found, with
the two stored times updated, and no `glDeleteProgram` call was made. -/
theorem recompile_false_object (E : Env) (s s' : State) (program : Ptr)
    (h : glsl_recompile E s program = (.ret false, s')) :
    s'.heap program = withTimes E (s.heap program) ∧ s.gl <+: s'.gl ∧
      ∀ x, GLCall.glDeleteProgram x ∉ glIssued s s' := by
  have hne : (glsl_recompile E s program).1 ≠ .ret true := by rw [h]; simp
  obtain ⟨d, hd, hdel, _⟩ := recompile_not_true E s program hne
  rw [h] at hd
  simp only at hd
  subst hd
  refine ⟨reached_heap_same _ _ _ _, ?_, ?_⟩
  · rw [reached_gl]
    exact List.prefix_append _ _
  · rw [glIssued_reached]
    exact hdel

/-- C1. Whenever `glsl_recompile` returns false, `program_`, `vsh_`, `fsh_` and the
thirteen cached locations of the object are what they were before the call, the GL
history has only been extended, and `glDeleteProgram` was not called on the pre-call
`program_` during the call. -/
theorem glsl_recompile_false_preserves (E : Env) (s s' : State) (program : Ptr)
    (h : glsl_recompile E s program = (.ret false, s')) :
    (s'.heap program).program_ = (s.heap program).program_ ∧
    (s'.heap program).vsh_ = (s.heap program).vsh_ ∧
    (s'.heap program).fsh_ = (s.heap program).fsh_ ∧
    (s'.heap program).sampler0 = (s.heap program).sampler0 ∧
    (s'.heap program).sampler1 = (s.heap program).sampler1 ∧
    (s'.heap program).a_position = (s.heap program).a_position ∧
    (s'.heap program).a_color = (s.heap program).a_color ∧
    (s'.heap program).a_normal = (s.heap program).a_normal ∧
    (s'.heap program).a_texcoord0 = (s.heap program).a_texcoord0 ∧
    (s'.heap program).a_texcoord1 = (s.heap program).a_texcoord1 ∧
    (s'.heap program).u_worldviewproj = (s.heap program).u_worldviewproj ∧
    (s'.heap program).u_world = (s.heap program).u_world ∧
    (s'.heap program).u_viewproj = (s.heap program).u_viewproj ∧
    (s'.heap program).u_fog = (s.heap program).u_fog ∧
    (s'.heap program).u_sundir = (s.heap program).u_sundir ∧
    (s'.heap program).u_camerapos = (s.heap program).u_camerapos ∧
    s.gl <+: s'.gl ∧
    GLCall.glDeleteProgram (s.heap program).program_ ∉ glIssued s s' := by
  obtain ⟨hobj, hpre, hdel⟩ := recompile_false_object E s s' program h
  rw [hobj]
  exact ⟨rfl, rfl, rfl, rfl, rfl, rfl, rfl, rfl, rfl, rfl, rfl, rfl, rfl, rfl, rfl, rfl,
    hpre, hdel _⟩

/-- C1, at a concrete input: a linked program whose link now fails keeps the handles
11, 12, 13 and its cached locations, and program 13 is not deleted. -/
theorem glsl_recompile_false_preserves_witness :
    (glsl_recompile envLinkFail oneProgram 7).1 = .ret false ∧
    ((glsl_recompile envLinkFail oneProgram 7).2.heap 7).program_ = 13 ∧
    ((glsl_recompile envLinkFail oneProgram 7).2.heap 7).sampler0 = 5 ∧
    GLCall.glDeleteProgram 13 ∉
      glIssued oneProgram (glsl_recompile envLinkFail oneProgram 7).2 :=
  have h := glsl_recompile_false_preserves envLinkFail oneProgram
    (glsl_recompile envLinkFail oneProgram 7).2 7 (Prod.ext (by decide) rfl)
  ⟨by decide, h.1, h.2.2.2.1, h.2.2.2.2.2.2.2.2.2.2.2.2.2.2.2.2.2⟩

/-- C3. Whenever `glsl_recompile` returns true, `program_` is a program object linked
during the call, and each of the thirteen cached locations equals the lookup of its own
name in that program, in the GL state the call ends in: `glGetAttribLocation` for the
five attributes, `glGetUniformLocation` for the eight uniforms.  The values are those
the driver reports, the not-found value -1 included; none depends on what the field held
before. -/
theorem glsl_recompile_true_locations (E : Env) (s s' : State) (program : Ptr)
    (h : glsl_recompile E s program = (.ret true, s')) :
    GLCall.glLinkProgram (s'.heap program).program_ ∈ glIssued s s' ∧
    (s'.heap program).sampler0 =
      glGetUniformLocation E s' (s'.heap program).program_ "sampler0" ∧
    (s'.heap program).sampler1 =
      glGetUniformLocation E s' (s'.heap program).program_ "sampler1" ∧
    (s'.heap program).a_position =
      glGetAttribLocation E s' (s'.heap program).program_ "a_position" ∧
    (s'.heap program).a_color =
      glGetAttribLocation E s' (s'.heap program).program_ "a_color" ∧
    (s'.heap program).a_normal =
      glGetAttribLocation E s' (s'.heap program).program_ "a_normal" ∧
    (s'.heap program).a_texcoord0 =
      glGetAttribLocation E s' (s'.heap program).program_ "a_texcoord0" ∧
    (s'.heap program).a_texcoord1 =
      glGetAttribLocation E s' (s'.heap program).program_ "a_texcoord1" ∧
    (s'.heap program).u_worldviewproj =
      glGetUniformLocation E s' (s'.heap program).program_ "u_worldviewproj" ∧
    (s'.heap program).u_world =
      glGetUniformLocation E s' (s'.heap program).program_ "u_world" ∧
    (s'.heap program).u_viewproj =
      glGetUniformLocation E s' (s'.heap program).program_ "u_viewproj" ∧
    (s'.heap program).u_fog =
      glGetUniformLocation E s' (s'.heap program).program_ "u_fog" ∧
    (s'.heap program).u_sundir =
      glGetUniformLocation E s' (s'.heap program).program_ "u_sundir" ∧
    (s'.heap program).u_camerapos =
      glGetUniformLocation E s' (s'.heap program).program_ "u_camerapos" := by
  have ht : (glsl_recompile E s program).1 = .ret true := by rw [h]
  obtain ⟨d, vsh, fsh, prog, hd, -, -, -, hlink, -⟩ := recompile_true E s program ht
  rw [h] at hd
  simp only at hd
  subst hd
  simp only [reached_heap_same, glIssued_reached]
  refine ⟨hlink, ?_⟩
  simp [storeLinked, glGetUniformLocation, glGetAttribLocation]

/-- C3, at a concrete input: the program at address 7 had `sampler0 = 5`, `u_world = 6`
and `a_position = 7`; after relinking, the driver reports `u_world` at 2, `a_position`
at 0 and no `sampler0`. -/
theorem glsl_recompile_true_locations_witness :
    (glsl_recompile envOk oneProgram 7).1 = .ret true ∧
    ((glsl_recompile envOk oneProgram 7).2.heap 7).sampler0 = -1 ∧
    ((glsl_recompile envOk oneProgram 7).2.heap 7).u_world = 2 ∧
    ((glsl_recompile envOk oneProgram 7).2.heap 7).a_position = 0 :=
  have h := glsl_recompile_true_locations envOk oneProgram
    (glsl_recompile envOk oneProgram 7).2 7 (Prod.ext (by decide) rfl)
  ⟨by decide, h.2.1.trans (by decide), h.2.2.2.2.2.2.2.2.2.1.trans (by decide),
    h.2.2.2.1.trans (by decide)⟩


/-- C4. With the file system a map `F` from path to modification time:
`glsl_up_to_date` is true exactly when the current modification times of the vertex path
and of the fragment path both equal the stored ones.  Evaluated in the same file system
directly after `glsl_recompile` ran (whatever its outcome), it is true; and in a file
system `F'` where the modification time of either file differs from the one
`glsl_recompile` saw, it is false. -/
theorem glsl_up_to_date_after_recompile (E E' : Env) (F F' : String → time_t) (s : State)
    (p : Ptr) :
    (glsl_up_to_date (E.withFiles F) s p = true ↔
      F (s.heap p).vshader_filename = (s.heap p).vshader_mtime ∧
      F (s.heap p).fshader_filename = (s.heap p).fshader_mtime) ∧
    glsl_up_to_date (E.withFiles F) (glsl_recompile (E.withFiles F) s p).2 p = true ∧
    ((F' (s.heap p).vshader_filename ≠ F (s.heap p).vshader_filename ∨
      F' (s.heap p).fshader_filename ≠ F (s.heap p).fshader_filename) →
      glsl_up_to_date (E'.withFiles F') (glsl_recompile (E.withFiles F) s p).2 p
        = false) := by
  obtain ⟨d, v, hd, hvf, hff, hvt, hft⟩ := recompile_reaches (E.withFiles F) s p
  rw [st_mtime_withFiles] at hvt hft
  refine ⟨?_, ?_, ?_⟩
  · unfold glsl_up_to_date
    simp only [st_mtime_withFiles]
    split_ifs with hc
    · simp only [Bool.false_eq_true, false_iff]
      tauto
    · simp only [true_iff]
      tauto
  · unfold glsl_up_to_date
    rw [hd]
    simp [st_mtime_withFiles, hvf, hff, hvt, hft]
  · intro hch
    unfold glsl_up_to_date
    rw [hd]
    simp only [reached_heap_same, st_mtime_withFiles, hvf, hff, hvt, hft]
    rw [if_pos hch]

/-- C4, at a concrete input: the program at address 7 is recompiled while both files
have modification time 100; it is then up to date, and no longer so once the times are
200. -/
theorem glsl_up_to_date_after_recompile_witness :
    glsl_up_to_date (envOk.withFiles (fun _ => 100))
      (glsl_recompile (envOk.withFiles (fun _ => 100)) oneProgram 7).2 7 = true ∧
    glsl_up_to_date (envOk.withFiles (fun _ => 200))
      (glsl_recompile (envOk.withFiles (fun _ => 100)) oneProgram 7).2 7 = false :=
  ⟨(glsl_up_to_date_after_recompile envOk envOk (fun _ => 100) (fun _ => 200)
      oneProgram 7).2.1,
   (glsl_up_to_date_after_recompile envOk envOk (fun _ => 100) (fun _ => 200)
      oneProgram 7).2.2 (Or.inl (by decide))⟩

/-- When the three copies of lines 51-53 stay inside their arrays (state `s1` after
them), `new` returned an object that is not in `active_programs`, and the initial
`glsl_recompile` returns `b`: `glsl_create` returns that object; it has called
`register_gl_resource_holder` on it exactly once; the object is in `active_programs`
afterwards exactly when `b` is true; and when `b` is false its three handles are 0. -/
theorem glsl_create_registers_in_bounds (E : Env) (s s1 s2 : State) (program : Ptr)
    (vshader fshader : String) (b : Bool)
    (hinit : createInit E s program vshader fshader = some s1)
    (hnew : program ∉ s.active_programs)
    (hret : glsl_recompile E s1 program = (.ret b, s2)) :
    ∃ s', glsl_create E s program vshader fshader = some (.ret program, s') ∧
      (callsIssued s s').count (.register_gl_resource_holder program) = 1 ∧
      (program ∈ s'.active_programs ↔ b = true) ∧
      (s'.active_programs =
        if b = true then insert program s.active_programs else s.active_programs) ∧
      (b = false → (s'.heap program).program_ = 0 ∧ (s'.heap program).vsh_ = 0 ∧
        (s'.heap program).fsh_ = 0) := by
  have hs1 : ∃ v, s1 = s.store program v ∧ v.program_ = 0 ∧ v.vsh_ = 0 ∧ v.fsh_ = 0 := by
    unfold createInit at hinit
    simp only [] at hinit
    split at hinit
    · cases hinit
    · split at hinit
      · cases hinit
      · split at hinit
        · cases hinit
        · exact ⟨_, (Option.some.inj hinit).symm, rfl, rfl, rfl⟩
  obtain ⟨v0, hv0, hz1, hz2, hz3⟩ := hs1
  obtain ⟨d, v, hd, -⟩ := recompile_reaches E s1 program
  rw [hret] at hd
  simp only at hd
  have hact : s2.active_programs = s.active_programs := by
    rw [hd, hv0]; simp
  have hcalls : s2.calls = s.calls ++ [.glsl_recompile program] := by
    rw [hd, hv0]; simp
  unfold glsl_create
  simp only [hinit, hret]
  refine ⟨_, rfl, ?_, ?_, ?_, ?_⟩
  · cases b <;> simp [callsIssued, hcalls, State.logCall]
  · cases b <;> simp [State.logCall, hact, hnew]
  · cases b <;> simp [State.logCall, hact]
  · intro hb
    subst hb
    have h := (recompile_false_object E _ _ program hret).1
    simp only [Bool.false_eq_true, if_false, logCall_heap, h, hv0]
    simp [withTimes, hz1, hz2, hz3]

/-- The preceding theorem at a concrete input: creating `shaders/basic_v.glsl` /
`shaders/basic_f.glsl` at address 7 while no file can be read returns the object,
registers it once, leaves it out of `active_programs`, with all three handles 0. -/
theorem glsl_create_registers_in_bounds_example :
    ∃ s', glsl_create envUnreadable emptyState 7 "shaders/basic_v.glsl"
        "shaders/basic_f.glsl" = some (.ret 7, s') ∧
      (callsIssued emptyState s').count (.register_gl_resource_holder 7) = 1 ∧
      7 ∉ s'.active_programs ∧
      (s'.heap 7).program_ = 0 ∧ (s'.heap 7).vsh_ = 0 ∧ (s'.heap 7).fsh_ = 0 := by
  obtain ⟨s1, hs1⟩ : ∃ s1, createInit envUnreadable emptyState 7 "shaders/basic_v.glsl"
      "shaders/basic_f.glsl" = some s1 := ⟨_, rfl⟩
  have hret : glsl_recompile envUnreadable s1 7 =
      (.ret false, (glsl_recompile envUnreadable s1 7).2) := by
    refine Prod.ext ?_ rfl
    rw [recompile_unreadable envUnreadable s1 7 (Or.inl rfl)]
  obtain ⟨s', h1, h2, h3, -, h5⟩ := glsl_create_registers_in_bounds envUnreadable
    emptyState s1 _ 7 _ _ false hs1 (by decide) hret
  exact ⟨s', h1, h2, fun h => by simpa using h3.mp h, h5 rfl⟩

/-- `GLLost` is `glsl_recompile` run on the object with its three handles zeroed, the
returned flag dropped. -/
theorem GLLost_state (E : Env) (s : State) (this : Ptr) :
    (GLLost E s this).2 = (glsl_recompile E (zeroHandles s this) this).2 ∧
    (GLLost E s this).1 =
      (match (glsl_recompile E (zeroHandles s this) this).1 with
        | .ret _ => .ret ()
        | .terminated => .terminated) := by
  have hz : ((s.store this { s.heap this with program_ := 0 }).store this
      { (s.store this { s.heap this with program_ := 0 }).heap this with vsh_ := 0 }).store this
      { ((s.store this { s.heap this with program_ := 0 }).store this
        { (s.store this { s.heap this with program_ := 0 }).heap this with vsh_ := 0 }).heap
          this with fsh_ := 0 } = zeroHandles s this := by
    simp [zeroHandles, State.store]
  unfold GLLost
  simp only [hz]
  cases hr : glsl_recompile E (zeroHandles s this) this with
  | mk o t => cases o <;> simp

/-- C8 (amended). `GLLost` ends in the state, and returns or terminates, exactly as
`glsl_recompile` does on the same object with `program_`, `vsh_` and `fsh_` first set
to 0.  It makes no `glDeleteProgram` call at all, and every `glDeleteShader` call it
makes is on a shader created during the call: a pre-loss handle is passed to
`glDeleteShader` only if the driver has handed that same name out again during the
call.  When that recompile returns true, `program_` and `vsh_` are the names the driver
returned for a program object and a vertex shader created during the call, non-zero
when the driver returns non-zero names; when it returns false, all three handles
are 0. -/
theorem GLLost_discards_handles (E : Env) (s : State) (this : Ptr) :
    (GLLost E s this).2 = (glsl_recompile E (zeroHandles s this) this).2 ∧
    (GLLost E s this).1 =
      (match (glsl_recompile E (zeroHandles s this) this).1 with
        | .ret _ => .ret ()
        | .terminated => .terminated) ∧
    (∀ x, GLCall.glDeleteProgram x ∉ glIssued s (GLLost E s this).2) ∧
    (∀ x, GLCall.glDeleteShader x ∈ glIssued s (GLLost E s this).2 →
      ∃ t, GLCall.glCreateShader t x ∈ glIssued s (GLLost E s this).2) ∧
    (∀ h, (h = (s.heap this).program_ ∨ h = (s.heap this).vsh_ ∨ h = (s.heap this).fsh_) →
      (∀ t, GLCall.glCreateShader t h ∉ glIssued s (GLLost E s this).2) →
      GLCall.glDeleteShader h ∉ glIssued s (GLLost E s this).2) ∧
    ((glsl_recompile E (zeroHandles s this) this).1 = .ret true →
      GLCall.glCreateProgram ((GLLost E s this).2.heap this).program_
        ∈ glIssued s (GLLost E s this).2 ∧
      GLCall.glCreateShader .GL_VERTEX_SHADER ((GLLost E s this).2.heap this).vsh_
        ∈ glIssued s (GLLost E s this).2 ∧
      ((∀ g t, E.createShader g t ≠ 0) → (∀ g, E.createProgram g ≠ 0) →
        ((GLLost E s this).2.heap this).program_ ≠ 0 ∧
        ((GLLost E s this).2.heap this).vsh_ ≠ 0)) ∧
    ((glsl_recompile E (zeroHandles s this) this).1 = .ret false →
      ((GLLost E s this).2.heap this).program_ = 0 ∧
      ((GLLost E s this).2.heap this).vsh_ = 0 ∧
      ((GLLost E s this).2.heap this).fsh_ = 0) := by
  obtain ⟨hst, hout⟩ := GLLost_state E s this
  have hgl : ∀ d v, glIssued s (reached (zeroHandles s this) this d v) = d := by
    intro d v
    simp [glIssued, reached, zeroHandles]
  have hsh : ∀ x, GLCall.glDeleteShader x ∈ glIssued s (GLLost E s this).2 →
      ∃ t, GLCall.glCreateShader t x ∈ glIssued s (GLLost E s this).2 := by
    intro x
    rw [hst]
    by_cases ht : (glsl_recompile E (zeroHandles s this) this).1 = .ret true
    · obtain ⟨d, vsh, fsh, prog, hd, -, -, -, -, -, -, hno, -⟩ :=
        recompile_true E _ this ht
      rw [hd, hgl]
      intro hx
      exact absurd hx (hno x)
    · obtain ⟨d, hd, -, hcr⟩ := recompile_not_true E _ this ht
      rw [hd, hgl]
      exact hcr x
  refine ⟨hst, hout, ?_, hsh, ?_, ?_, ?_⟩
  · intro x
    rw [hst]
    by_cases ht : (glsl_recompile E (zeroHandles s this) this).1 = .ret true
    · obtain ⟨d, vsh, fsh, prog, hd, -, -, -, -, -, -, -, hdel⟩ :=
        recompile_true E _ this ht
      rw [hd, hgl]
      intro hx
      have h0 := (hdel x hx)
      have hz : ((zeroHandles s this).heap this).program_ = 0 := by simp [zeroHandles]
      exact h0.2 (h0.1.trans hz)
    · obtain ⟨d, hd, hdel, -⟩ := recompile_not_true E _ this ht
      rw [hd, hgl]
      exact hdel x
  · intro h _ hnone hdel
    obtain ⟨t, ht⟩ := hsh h hdel
    exact hnone t ht
  · intro ht
    obtain ⟨d, vsh, fsh, prog, hd, hv, -, hp, -, ⟨g1, hg1⟩, ⟨g2, hg2⟩, -, -⟩ :=
      recompile_true E _ this ht
    rw [hst, hd, hgl]
    simp only [reached_heap_same, storeLinked]
    refine ⟨hp, hv, ?_⟩
    intro hs hpz
    exact ⟨hg2 ▸ hpz g2, hg1 ▸ hs g1 _⟩
  · intro hf
    have hne : (glsl_recompile E (zeroHandles s this) this).1 ≠ .ret true := by
      rw [hf]; simp
    obtain ⟨d, hd, -, -⟩ := recompile_not_true E _ this hne
    rw [hst, hd]
    simp [withTimes, zeroHandles]

/-- C8 (amended), at a concrete input: after a loss, the program at address 7 (handles
11, 12, 13) is relinked with the names 1 and 7 for the vertex shader and the program
object; none of 11, 12, 13 is passed to `glDeleteShader`. -/
theorem GLLost_discards_handles_witness :
    (glsl_recompile envOk (zeroHandles oneProgram 7) 7).1 = .ret true ∧
    ((GLLost envOk oneProgram 7).2.heap 7).program_ ≠ 0 ∧
    ((GLLost envOk oneProgram 7).2.heap 7).vsh_ ≠ 0 ∧
    GLCall.glDeleteShader 11 ∉ glIssued oneProgram (GLLost envOk oneProgram 7).2 :=
  ⟨by decide,
   ((GLLost_discards_handles envOk oneProgram 7).2.2.2.2.2.1 (by decide)).2.2
     (fun g _ => Nat.succ_ne_zero g.length) (fun g => Nat.succ_ne_zero g.length) |>.1,
   ((GLLost_discards_handles envOk oneProgram 7).2.2.2.2.2.1 (by decide)).2.2
     (fun g _ => Nat.succ_ne_zero g.length) (fun g => Nat.succ_ne_zero g.length) |>.2,
   (GLLost_discards_handles envOk oneProgram 7).2.2.2.2.1 11 (Or.inr (Or.inl (by decide)))
     (fun t => by cases t <;> decide)⟩

/-- C8, a counterexample to the claim as stated, in two parts.  (1) The driver returns
the name 0 from every creation call and reports a successful link: the recompile inside
`GLLost` returns true and the object ends with all three handles 0.  (2) The pre-loss
handles are 11, 12, 13, the driver hands out 11 and 12 again for the new shaders and the
link fails: `GLLost` calls `glDeleteShader` on 11 and on 12. -/
theorem GLLost_zero_or_reused_names :
    ((glsl_recompile envZeroNames (zeroHandles oneProgram 7) 7).1 = .ret true ∧
      ((GLLost envZeroNames oneProgram 7).2.heap 7).program_ = 0 ∧
      ((GLLost envZeroNames oneProgram 7).2.heap 7).vsh_ = 0 ∧
      ((GLLost envZeroNames oneProgram 7).2.heap 7).fsh_ = 0) ∧
    ((oneProgram.heap 7).vsh_ = 11 ∧ (oneProgram.heap 7).fsh_ = 12 ∧
      (GLLost envReusedNames oneProgram 7).1 = .ret () ∧
      GLCall.glDeleteShader 11 ∈ glIssued oneProgram (GLLost envReusedNames oneProgram 7).2 ∧
      GLCall.glDeleteShader 12 ∈
        glIssued oneProgram (GLLost envReusedNames oneProgram 7).2) := by
  decide

/-- C2, the code at a failing input.  Relinking the program at address 7 succeeds; the
driver names the vertex shader 1, the fragment shader 4 and the program object 7.  The
object then holds `program_ = 7` and `vsh_ = 1`, but `fsh_ = 1`: line 147 stores `vsh`
into `fsh_`, and the fragment shader 4 is stored nowhere; a later `glsl_destroy`
deletes shader 1 twice and shader 4 never. -/
theorem glsl_recompile_fsh_holds_vsh :
    (glsl_recompile envOk oneProgram 7).1 = .ret true ∧
    glIssued oneProgram (glsl_recompile envOk oneProgram 7).2 =
      [.glCreateShader .GL_VERTEX_SHADER 1, .glShaderSource 1 "V", .glCompileShader 1,
       .glCreateShader .GL_FRAGMENT_SHADER 4, .glShaderSource 4 "F", .glCompileShader 4,
       .glCreateProgram 7, .glAttachShader 7 1, .glAttachShader 7 4, .glLinkProgram 7,
       .glDeleteProgram 13] ∧
    ((glsl_recompile envOk oneProgram 7).2.heap 7).program_ = 7 ∧
    ((glsl_recompile envOk oneProgram 7).2.heap 7).vsh_ = 1 ∧
    ((glsl_recompile envOk oneProgram 7).2.heap 7).fsh_ = 1 ∧
    ((glsl_recompile envOk oneProgram 7).2.heap 7).fsh_ ≠ 4 ∧
    glIssued (glsl_recompile envOk oneProgram 7).2
        (glsl_destroy (glsl_recompile envOk oneProgram 7).2 7) =
      [.glDeleteShader 1, .glDeleteShader 1, .glDeleteProgram 7] := by
  decide

/-- On every path that returns true, `fsh_` ends up equal to `vsh_`. -/
theorem recompile_true_fsh_eq_vsh (E : Env) (s : State) (program : Ptr)
    (h : (glsl_recompile E s program).1 = .ret true) :
    ((glsl_recompile E s program).2.heap program).fsh_ =
      ((glsl_recompile E s program).2.heap program).vsh_ := by
  obtain ⟨d, vsh, fsh, prog, hd, -⟩ := recompile_true E s program h
  rw [hd]
  simp [storeLinked]

/-- C9, the code at a failing input.  Relinking the program at address 7 fails at the
link step and returns false.  The two new shaders 1 and 4 are deleted, but the program
object 7 obtained from `glCreateProgram` is not: the call issues no `glDeleteProgram`. -/
theorem glsl_recompile_link_failure_keeps_program_object :
    (glsl_recompile envLinkFail oneProgram 7).1 = .ret false ∧
    glIssued oneProgram (glsl_recompile envLinkFail oneProgram 7).2 =
      [.glCreateShader .GL_VERTEX_SHADER 1, .glShaderSource 1 "V", .glCompileShader 1,
       .glCreateShader .GL_FRAGMENT_SHADER 4, .glShaderSource 4 "F", .glCompileShader 4,
       .glCreateProgram 7, .glAttachShader 7 1, .glAttachShader 7 4, .glLinkProgram 7,
       .glDeleteShader 1, .glDeleteShader 4] ∧
    GLCall.glDeleteProgram 7 ∉ glIssued oneProgram (glsl_recompile envLinkFail oneProgram 7).2 := by
  decide

/-- C10, the code at a failing input.  For the six-character path `v.glsl` the pointer
handed to `strcpy` lies 10 characters before the start of the string, so what is copied
into `name` is not a part of the path: the copy has no defined behaviour. -/
theorem glsl_create_name_offset_negative :
    strlen "v.glsl" = 6 ∧ nameOffset "v.glsl" = -10 ∧ nameOffset "v.glsl" < 0 ∧
    displayName "v.glsl" = none ∧
    (createInit envOk emptyState 7 "v.glsl" "f.glsl").isNone = true := by
  decide

/-- The offset is negative exactly for paths shorter than 16 characters; for the other
paths the name is the last 16 characters. -/
theorem nameOffset_neg_iff (vshader : String) :
    nameOffset vshader < 0 ↔ strlen vshader < 16 := by
  unfold nameOffset
  omega


/-- `glsl_up_to_date` reads nothing but the object at the given address. -/
theorem up_to_date_congr (E : Env) (s t : State) (q : Ptr) (h : t.heap q = s.heap q) :
    glsl_up_to_date E t q = glsl_up_to_date E s q := by
  unfold glsl_up_to_date
  rw [h]

/-- The loop of `glsl_refresh` over a duplicate-free list `l`: the programs `done` it
recompiles form an initial part of the stale elements of `l`, all of them when the loop
returns; each is recompiled from an object equal to the one it had at the start; every
other object and `active_programs` are left alone. -/
theorem refreshLoop_spec (E : Env) : ∀ (l : List Ptr) (s : State), l.Nodup →
    ∃ done : List Ptr,
      (refreshLoop E l s).2.calls = s.calls ++ done.map Call.glsl_recompile ∧
      done <+: l.filter (fun q => !glsl_up_to_date E s q) ∧
      ((refreshLoop E l s).1 = .ret () → done = l.filter (fun q => !glsl_up_to_date E s q)) ∧
      (∀ q, q ∉ done → (refreshLoop E l s).2.heap q = s.heap q) ∧
      (∀ q ∈ done, ∃ t : State, t.heap q = s.heap q ∧
        (refreshLoop E l s).2.heap q = (glsl_recompile E t q).2.heap q) ∧
      (refreshLoop E l s).2.active_programs = s.active_programs := by
  intro l
  induction l with
  | nil =>
    intro s _
    exact ⟨[], by simp [refreshLoop], by simp, by simp, by simp [refreshLoop], by simp,
      by simp [refreshLoop]⟩
  | cons p rest ih =>
    intro s hnd
    have hp : p ∉ rest := (List.nodup_cons.mp hnd).1
    have hrest : rest.Nodup := (List.nodup_cons.mp hnd).2
    by_cases hup : glsl_up_to_date E s p = false
    · obtain ⟨d, v, hd, -⟩ := recompile_reaches E s p
      have hfilter : rest.filter (fun q => !glsl_up_to_date E (reached s p d v) q) =
          rest.filter (fun q => !glsl_up_to_date E s q) := by
        apply List.filter_congr
        intro q hq
        have hqp : q ≠ p := fun e => hp (e ▸ hq)
        rw [up_to_date_congr E s _ q (reached_heap_other s p q d v hqp)]
      cases hr : glsl_recompile E s p with
      | mk o s1 =>
        rw [hr] at hd
        simp only at hd
        subst hd
        cases o with
        | terminated =>
          refine ⟨[p], ?_, ?_, ?_, ?_, ?_, ?_⟩
          · simp [refreshLoop, hup, hr]
          · simp [List.filter_cons, hup]
          · simp [refreshLoop, hup, hr]
          · intro q hq
            have hqp : q ≠ p := by simpa using hq
            simp only [refreshLoop, hup, hr, if_true]
            exact reached_heap_other s p q d v hqp
          · intro q hq
            have hqp : q = p := by simpa using hq
            subst hqp
            exact ⟨s, rfl, by simp [refreshLoop, hup, hr]⟩
          · simp [refreshLoop, hup, hr]
        | ret b =>
          obtain ⟨done, hc, hpre, hret, hheap, hrec, hact⟩ := ih (reached s p d v) hrest
          have hloop : refreshLoop E (p :: rest) s = refreshLoop E rest (reached s p d v) := by
            simp [refreshLoop, hup, hr]
          rw [hfilter] at hpre hret
          have hpd : p ∉ done := fun hin => hp (List.mem_of_mem_filter (hpre.subset hin))
          refine ⟨p :: done, ?_, ?_, ?_, ?_, ?_, ?_⟩
          · rw [hloop, hc]
            simp
          · simp only [List.filter_cons, hup, Bool.not_false, if_true]
            exact List.prefix_cons_inj p |>.mpr hpre
          · intro h
            rw [hloop] at h
            simp only [List.filter_cons, hup, Bool.not_false, if_true]
            rw [hret h]
          · intro q hq
            have hqp : q ≠ p := fun e => hq (e ▸ List.mem_cons_self _ _)
            have hqd : q ∉ done := fun hin => hq (List.mem_cons_of_mem _ hin)
            rw [hloop, hheap q hqd]
            exact reached_heap_other s p q d v hqp
          · intro q hq
            rcases List.mem_cons.mp hq with rfl | hqd
            · refine ⟨s, rfl, ?_⟩
              rw [hloop, hheap q hpd, hr]
            · obtain ⟨t, ht, hq2⟩ := hrec q hqd
              have hqp : q ≠ p := fun e => hpd (e ▸ hqd)
              refine ⟨t, ht.trans (reached_heap_other s p q d v hqp), ?_⟩
              rw [hloop, hq2]
          · rw [hloop, hact]
            rfl
    · have hup2 : glsl_up_to_date E s p = true := by simpa using hup
      obtain ⟨done, hc, hpre, hret, hheap, hrec, hact⟩ := ih s hrest
      have hloop : refreshLoop E (p :: rest) s = refreshLoop E rest s := by
        simp [refreshLoop, hup2]
      have hfil : (p :: rest).filter (fun q => !glsl_up_to_date E s q) =
          rest.filter (fun q => !glsl_up_to_date E s q) := by
        simp [List.filter_cons, hup2]
      rw [hloop, hfil]
      exact ⟨done, hc, hpre, hret, hheap, hrec, hact⟩


/-- What one `glsl_refresh` sweep does to a program `q`, in terms of the ghost log: it
enters `glsl_recompile` on `q` at most once, and only if `q` is a stale member of
`active_programs`; exactly once for such a `q` when the sweep returns; a program that is
not recompiled keeps its object; a recompiled one is recompiled from the object it had
at the start; `active_programs` is unchanged. -/
theorem refresh_calls (E : Env) (s : State) (q : Ptr) :
    (callsIssued s (glsl_refresh E s).2).count (.glsl_recompile q) ≤ 1 ∧
    (Call.glsl_recompile q ∈ callsIssued s (glsl_refresh E s).2 →
      q ∈ s.active_programs ∧ glsl_up_to_date E s q = false) ∧
    ((glsl_refresh E s).1 = .ret () → q ∈ s.active_programs →
      glsl_up_to_date E s q = false →
      (callsIssued s (glsl_refresh E s).2).count (.glsl_recompile q) = 1) ∧
    (Call.glsl_recompile q ∉ callsIssued s (glsl_refresh E s).2 →
      (glsl_refresh E s).2.heap q = s.heap q) ∧
    (Call.glsl_recompile q ∈ callsIssued s (glsl_refresh E s).2 →
      ∃ t : State, t.heap q = s.heap q ∧
        (glsl_refresh E s).2.heap q = (glsl_recompile E t q).2.heap q) ∧
    (glsl_refresh E s).2.active_programs = s.active_programs := by
  have hnd : (s.active_programs.sort (· ≤ ·)).Nodup := Finset.sort_nodup _ _
  obtain ⟨done, hc, hpre, hret, hheap, hrec, hact⟩ :=
    refreshLoop_spec E (s.active_programs.sort (· ≤ ·)) s hnd
  have hinj : Function.Injective Call.glsl_recompile := by
    intro a b hab
    cases hab
    rfl
  have hissued : callsIssued s (glsl_refresh E s).2 = done.map Call.glsl_recompile := by
    unfold callsIssued glsl_refresh
    rw [hc]
    simp
  have hcount : (done.map Call.glsl_recompile).count (.glsl_recompile q) = done.count q :=
    List.count_map_of_injective done Call.glsl_recompile hinj q
  have hmem : Call.glsl_recompile q ∈ done.map Call.glsl_recompile ↔ q ∈ done := by
    rw [List.mem_map]
    constructor
    · rintro ⟨a, ha, hq⟩
      cases hq
      exact ha
    · intro h
      exact ⟨q, h, rfl⟩
  have hfnd : (List.filter (fun q => !glsl_up_to_date E s q)
      (s.active_programs.sort (· ≤ ·))).Nodup := hnd.filter _
  have hdnd : done.Nodup := hpre.sublist.nodup hfnd
  have hsub : ∀ x, x ∈ done → x ∈ s.active_programs ∧ glsl_up_to_date E s x = false := by
    intro x hx
    have h1 := hpre.subset hx
    rw [List.mem_filter] at h1
    exact ⟨(Finset.mem_sort _).mp h1.1, by simpa using h1.2⟩
  rw [hissued, hcount, hmem]
  refine ⟨List.nodup_iff_count_le_one.mp hdnd q, hsub q, ?_, hheap q, hrec q, hact⟩
  intro hr hq hst
  have hr2 : (refreshLoop E (s.active_programs.sort (· ≤ ·)) s).1 = .ret () := hr
  have hqd : q ∈ done := by
    rw [hret hr2, List.mem_filter]
    exact ⟨(Finset.mem_sort _).mpr hq, by simp [hst]⟩
  exact List.count_eq_one_of_mem hdnd hqd

/-- C5 (amended). In every `glsl_refresh` sweep, `glsl_recompile` is invoked at most
once on any program, and only on members of `active_programs` for which
`glsl_up_to_date` is false; every program that is up to date, and every program outside
the set, keeps all its fields.  When the sweep returns (no recompile terminates the
process), every stale member is recompiled exactly once. -/
theorem glsl_refresh_recompiles_stale (E : Env) (s : State) (q : Ptr) :
    (callsIssued s (glsl_refresh E s).2).count (.glsl_recompile q) ≤ 1 ∧
    (Call.glsl_recompile q ∈ callsIssued s (glsl_refresh E s).2 →
      q ∈ s.active_programs ∧ glsl_up_to_date E s q = false) ∧
    ((q ∉ s.active_programs ∨ glsl_up_to_date E s q = true) →
      (glsl_refresh E s).2.heap q = s.heap q) ∧
    ((glsl_refresh E s).1 = .ret () → q ∈ s.active_programs →
      glsl_up_to_date E s q = false →
      (callsIssued s (glsl_refresh E s).2).count (.glsl_recompile q) = 1) := by
  obtain ⟨h1, h2, h3, h4, -, -⟩ := refresh_calls E s q
  refine ⟨h1, h2, ?_, h3⟩
  intro hq
  apply h4
  intro hin
  obtain ⟨hm, hs⟩ := h2 hin
  rcases hq with hq | hq
  · exact hq hm
  · rw [hq] at hs
    cases hs

/-- Iteration order of the set holding the addresses 1 and 2. -/
theorem sort_one_two : Finset.sort (· ≤ ·) ({1, 2} : Finset Ptr) = [1, 2] :=
  (List.toFinset_sort (· ≤ ·) (by decide : [1, 2].Nodup)).mpr (by decide)

/-- C5, a counterexample to the claim as stated.  Programs 1 and 2 are both active and
stale, and the vertex shader does not compile: the sweep recompiles program 1, the
process is terminated there, and `glsl_recompile` is never invoked on program 2. -/
theorem glsl_refresh_stops_at_compile_error :
    2 ∈ twoPrograms.active_programs ∧
    glsl_up_to_date envCompileError twoPrograms 2 = false ∧
    (glsl_refresh envCompileError twoPrograms).1 = .terminated ∧
    callsIssued twoPrograms (glsl_refresh envCompileError twoPrograms).2 =
      [.glsl_recompile 1] ∧
    (callsIssued twoPrograms (glsl_refresh envCompileError twoPrograms).2).count
      (.glsl_recompile 2) = 0 := by
  have h : glsl_refresh envCompileError twoPrograms =
      refreshLoop envCompileError [1, 2] twoPrograms := by
    unfold glsl_refresh
    rw [show twoPrograms.active_programs = {1, 2} from rfl, sort_one_two]
  rw [h]
  decide

/-- C5 (amended), at a concrete input: the one active program is stale and its files
cannot be read; the sweep returns and has recompiled it exactly once. -/
theorem glsl_refresh_recompiles_stale_witness :
    (glsl_refresh envUnreadable oneProgram).1 = .ret () ∧
    7 ∈ oneProgram.active_programs ∧
    glsl_up_to_date envUnreadable oneProgram 7 = false ∧
    (callsIssued oneProgram (glsl_refresh envUnreadable oneProgram).2).count
      (.glsl_recompile 7) = 1 :=
  have h : glsl_refresh envUnreadable oneProgram =
      refreshLoop envUnreadable [7] oneProgram := by
    unfold glsl_refresh
    rw [show oneProgram.active_programs = {7} from rfl, Finset.sort_singleton]
  have hr : (glsl_refresh envUnreadable oneProgram).1 = .ret () := by
    rw [h]
    decide
  ⟨hr, by decide, by decide,
    (glsl_refresh_recompiles_stale envUnreadable oneProgram 7).2.2.2 hr (by decide)
      (by decide)⟩


/-- After a sweep has recompiled `program` and failed on an unreadable source, the next
sweep decides on the values it reads itself: it recompiles `program` only if the time
`glsl_up_to_date` reads for the vertex or the fragment path differs from the one the
failed `glsl_recompile` read, and exactly once in that case when the sweep returns. -/
theorem refresh_retry_reads (E1 E2 : Env) (s s1 : State) (program : Ptr)
    (hmem : program ∈ s.active_programs)
    (hstale : glsl_up_to_date E1 s program = false)
    (hunread : E1.VFSReadFile (s.heap program).vshader_filename = none ∨
      E1.VFSReadFile (s.heap program).fshader_filename = none)
    (h1 : glsl_refresh E1 s = (.ret (), s1)) :
    (callsIssued s s1).count (.glsl_recompile program) = 1 ∧
    (∀ t : State, t.heap program = s.heap program →
      (glsl_recompile E1 t program).1 = .ret false) ∧
    (Call.glsl_recompile program ∈ callsIssued s1 (glsl_refresh E2 s1).2 →
      E2.st_mtime .up_to_date_vs (s.heap program).vshader_filename ≠
        E1.st_mtime .recompile_vs (s.heap program).vshader_filename ∨
      E2.st_mtime .up_to_date_fs (s.heap program).fshader_filename ≠
        E1.st_mtime .recompile_fs (s.heap program).fshader_filename) ∧
    ((E2.st_mtime .up_to_date_vs (s.heap program).vshader_filename ≠
        E1.st_mtime .recompile_vs (s.heap program).vshader_filename ∨
      E2.st_mtime .up_to_date_fs (s.heap program).fshader_filename ≠
        E1.st_mtime .recompile_fs (s.heap program).fshader_filename) →
      (glsl_refresh E2 s1).1 = .ret () →
      (callsIssued s1 (glsl_refresh E2 s1).2).count (.glsl_recompile program) = 1) := by
  have hfalse : ∀ t : State, t.heap program = s.heap program →
      glsl_recompile E1 t program =
        (.ret false, reached t program [] (withTimes E1 (s.heap program))) := by
    intro t ht
    have h := recompile_unreadable E1 t program (by rw [ht]; exact hunread)
    rw [ht] at h
    exact h
  obtain ⟨-, -, hcnt, -, hrec, hact⟩ := refresh_calls E1 s program
  rw [h1] at hcnt hrec hact
  simp only at hcnt hrec hact
  have hone := hcnt trivial hmem hstale
  have hin : Call.glsl_recompile program ∈ callsIssued s s1 := by
    rw [← List.count_pos_iff, hone]
    exact Nat.one_pos
  obtain ⟨t, ht, hobj⟩ := hrec hin
  rw [hfalse t ht] at hobj
  simp only [reached_heap_same] at hobj
  have hmem1 : program ∈ s1.active_programs := by rw [hact]; exact hmem
  obtain ⟨-, honly, hcnt2, -, -, -⟩ := refresh_calls E2 s1 program
  refine ⟨hone, fun t ht => by rw [hfalse t ht], ?_, ?_⟩
  · intro hcall
    have hst := (honly hcall).2
    unfold glsl_up_to_date at hst
    rw [hobj] at hst
    simp only [withTimes] at hst
    by_contra hcon
    rw [if_neg hcon] at hst
    cases hst
  · intro hdiff hret
    apply hcnt2 hret hmem1
    unfold glsl_up_to_date
    rw [hobj]
    simp only [withTimes]
    rw [if_pos hdiff]

/-- C6 (amended). Let `program` be an active program that a returning `glsl_refresh`
sweep (environment `E1`) finds stale while its vertex or fragment source is unreadable.
That sweep invokes `glsl_recompile` on it once, and this call returns false without
terminating, from whatever state the sweep reaches it in.  Let `stat` resolve both
files at that sweep and at the next one (environment `E2`): if both modification times
are the same at the two sweeps, the program is not recompiled again; if either differs
and the next sweep returns, it is recompiled exactly once.  Nothing is said about a
file that `stat` cannot resolve. -/
theorem glsl_refresh_retry_only_after_touch (E1 E2 : Env) (s s1 : State) (program : Ptr)
    (hmem : program ∈ s.active_programs)
    (hstale : glsl_up_to_date E1 s program = false)
    (hunread : E1.VFSReadFile (s.heap program).vshader_filename = none ∨
      E1.VFSReadFile (s.heap program).fshader_filename = none)
    (h1 : glsl_refresh E1 s = (.ret (), s1)) :
    (callsIssued s s1).count (.glsl_recompile program) = 1 ∧
    (∀ t : State, t.heap program = s.heap program →
      (glsl_recompile E1 t program).1 = .ret false) ∧
    (∀ tv tf : time_t,
      E1.stat (s.heap program).vshader_filename = some tv →
      E1.stat (s.heap program).fshader_filename = some tf →
      E2.stat (s.heap program).vshader_filename = some tv →
      E2.stat (s.heap program).fshader_filename = some tf →
      Call.glsl_recompile program ∉ callsIssued s1 (glsl_refresh E2 s1).2) ∧
    (∀ tv1 tf1 tv2 tf2 : time_t,
      E1.stat (s.heap program).vshader_filename = some tv1 →
      E1.stat (s.heap program).fshader_filename = some tf1 →
      E2.stat (s.heap program).vshader_filename = some tv2 →
      E2.stat (s.heap program).fshader_filename = some tf2 →
      (tv2 ≠ tv1 ∨ tf2 ≠ tf1) →
      (glsl_refresh E2 s1).1 = .ret () →
      (callsIssued s1 (glsl_refresh E2 s1).2).count (.glsl_recompile program) = 1) := by
  obtain ⟨hone, hfalse, honly, hdiff⟩ :=
    refresh_retry_reads E1 E2 s s1 program hmem hstale hunread h1
  refine ⟨hone, hfalse, ?_, ?_⟩
  · intro tv tf hv1 hf1 hv2 hf2 hcall
    have h := honly hcall
    rw [st_mtime_of_stat E1 _ _ tv hv1, st_mtime_of_stat E1 _ _ tf hf1,
      st_mtime_of_stat E2 _ _ tv hv2, st_mtime_of_stat E2 _ _ tf hf2] at h
    rcases h with h | h <;> exact h rfl
  · intro tv1 tf1 tv2 tf2 hv1 hf1 hv2 hf2 hne hret
    apply hdiff _ hret
    rw [st_mtime_of_stat E1 _ _ tv1 hv1, st_mtime_of_stat E1 _ _ tf1 hf1,
      st_mtime_of_stat E2 _ _ tv2 hv2, st_mtime_of_stat E2 _ _ tf2 hf2]
    exact hne

/-- C6, a counterexample to the claim as stated.  The files of the active program 7
exist (`stat` reports modification time 100, the stored time is 0) but cannot be read:
the first sweep recompiles it, which returns false; at the second sweep, with the file
system unchanged, `glsl_recompile` is not invoked at all. -/
theorem glsl_refresh_no_retry_when_times_unchanged :
    7 ∈ oneProgram.active_programs ∧
    glsl_up_to_date envUnreadable oneProgram 7 = false ∧
    envUnreadable.stat (oneProgram.heap 7).vshader_filename = some 100 ∧
    envUnreadable.stat (oneProgram.heap 7).fshader_filename = some 100 ∧
    envUnreadable.VFSReadFile (oneProgram.heap 7).vshader_filename = none ∧
    (glsl_refresh envUnreadable oneProgram).1 = .ret () ∧
    callsIssued oneProgram (glsl_refresh envUnreadable oneProgram).2 = [.glsl_recompile 7] ∧
    (glsl_recompile envUnreadable oneProgram 7).1 = .ret false ∧
    (glsl_refresh envUnreadable (glsl_refresh envUnreadable oneProgram).2).1 = .ret () ∧
    callsIssued (glsl_refresh envUnreadable oneProgram).2
      (glsl_refresh envUnreadable (glsl_refresh envUnreadable oneProgram).2).2 = [] := by
  have h : glsl_refresh envUnreadable oneProgram =
      refreshLoop envUnreadable [7] oneProgram := by
    unfold glsl_refresh
    rw [show oneProgram.active_programs = {7} from rfl, Finset.sort_singleton]
  have h2 : glsl_refresh envUnreadable (refreshLoop envUnreadable [7] oneProgram).2 =
      refreshLoop envUnreadable [7] (refreshLoop envUnreadable [7] oneProgram).2 := by
    unfold glsl_refresh
    rw [show (refreshLoop envUnreadable [7] oneProgram).2.active_programs = {7} from rfl,
      Finset.sort_singleton]
  rw [h, h2]
  decide

/-- C6 (amended), at a concrete input: program 7 fails to recompile at the first sweep;
once the modification times have moved from 100 to 200 the second sweep recompiles it
again. -/
theorem glsl_refresh_retry_only_after_touch_witness :
    7 ∈ oneProgram.active_programs ∧
    glsl_up_to_date envUnreadable oneProgram 7 = false ∧
    envUnreadable.VFSReadFile (oneProgram.heap 7).vshader_filename = none ∧
    (glsl_refresh envUnreadable oneProgram).1 = .ret () ∧
    (callsIssued (glsl_refresh envUnreadable oneProgram).2
      (glsl_refresh envTouched (glsl_refresh envUnreadable oneProgram).2).2).count
        (.glsl_recompile 7) = 1 :=
  have h : glsl_refresh envUnreadable oneProgram =
      refreshLoop envUnreadable [7] oneProgram := by
    unfold glsl_refresh
    rw [show oneProgram.active_programs = {7} from rfl, Finset.sort_singleton]
  have h2 : glsl_refresh envTouched (refreshLoop envUnreadable [7] oneProgram).2 =
      refreshLoop envTouched [7] (refreshLoop envUnreadable [7] oneProgram).2 := by
    unfold glsl_refresh
    rw [show (refreshLoop envUnreadable [7] oneProgram).2.active_programs = {7} from rfl,
      Finset.sort_singleton]
  have hr : (glsl_refresh envUnreadable oneProgram).1 = .ret () := by
    rw [h]
    decide
  have hr2 : (glsl_refresh envTouched (glsl_refresh envUnreadable oneProgram).2).1
      = .ret () := by
    rw [h, h2]
    decide
  ⟨by decide, by decide, by decide, hr,
    (glsl_refresh_retry_only_after_touch envUnreadable envTouched oneProgram
      (glsl_refresh envUnreadable oneProgram).2 7 (by decide) (by decide)
      (Or.inl (by decide)) (Prod.ext hr rfl)).2.2.2 100 100 200 200 rfl rfl rfl rfl
      (Or.inl (by decide)) hr2⟩

/-- A missing file in the model: `stat` fails on the files of the active program 7 and
they cannot be read.  The failed `glsl_recompile` stores what its unwritten locals hold
(1), `glsl_up_to_date` compares with what its own unwritten locals hold (2): the program
is recompiled again at the second sweep although nothing changed. -/
theorem glsl_refresh_missing_file_retried :
    envMissing.stat (oneProgram.heap 7).vshader_filename = none ∧
    callsIssued oneProgram (glsl_refresh envMissing oneProgram).2 = [.glsl_recompile 7] ∧
    callsIssued (glsl_refresh envMissing oneProgram).2
      (glsl_refresh envMissing (glsl_refresh envMissing oneProgram).2).2
        = [.glsl_recompile 7] := by
  have h : glsl_refresh envMissing oneProgram =
      refreshLoop envMissing [7] oneProgram := by
    unfold glsl_refresh
    rw [show oneProgram.active_programs = {7} from rfl, Finset.sort_singleton]
  have h2 : glsl_refresh envMissing (refreshLoop envMissing [7] oneProgram).2 =
      refreshLoop envMissing [7] (refreshLoop envMissing [7] oneProgram).2 := by
    unfold glsl_refresh
    rw [show (refreshLoop envMissing [7] oneProgram).2.active_programs = {7} from rfl,
      Finset.sort_singleton]
  rw [h, h2]
  decide

end GLSL
